import Mathlib

/-!
Verification of the record-normalization and persistence core of the
FB Ads Explorer repository (`logic.py`), as a shallow embedding in Lean 4.

Python values flowing through the normalizer are modelled by the inductive
type `Val` (None, bool, int, str, list, dict).  Python `dict` objects with
string keys are modelled as association lists (`PyDict`), with `get`
returning `Val.vnull` both for an absent key and for a stored `None`
(exactly as `dict.get` in Python conflates the two).  Machine-level
subtleties the source does not rely on (unicode case mapping beyond ASCII,
quote escaping inside `repr` of containers) are modelled ASCII-only, which
covers every value the theorems below evaluate.
-/

namespace AdAnalytics

/-- Model of a Python value as it appears in the scraped records. -/
inductive Val where
  | vnull
  | vbool (b : Bool)
  | vint (n : Int)
  | vstr (s : String)
  | vlist (xs : List Val)
  | vdict (d : List (String × Val))
deriving Repr

/-- A Python dict with string keys (the `item` argument of the helpers). -/
abbrev PyDict := List (String × Val)

namespace Val

/-- Python truthiness (`bool(v)`). -/
def truthy : Val → Bool
  | vnull => false
  | vbool b => b
  | vint n => n ≠ 0
  | vstr s => s ≠ ""
  | vlist xs => !xs.isEmpty
  | vdict d => !d.isEmpty

/-- Discriminator: is this value a string? -/
def isStr : Val → Bool
  | vstr _ => true
  | _ => false

/-- Discriminator: is this value `None`? -/
def isNull : Val → Bool
  | vnull => true
  | _ => false

end Val

open Val

/-- `d.get(k)`: first binding wins; `vnull` when the key is absent. -/
def dictGet (d : PyDict) (k : String) : Val :=
  match d.find? (fun p => p.1 == k) with
  | some p => p.2
  | none => Val.vnull

/-- Python `a or b`: `a` when truthy, else `b`. -/
def pyOr (a b : Val) : Val := if a.truthy then a else b

mutual

/-- Python `repr` for values (ASCII, no quote escaping inside strings,
which never occurs in the inputs considered here). -/
def pyRepr : Val → String
  | vnull => "None"
  | vbool b => if b then "True" else "False"
  | vint n => toString n
  | vstr s => "'" ++ s ++ "'"
  | vlist xs => "[" ++ pyReprList xs ++ "]"
  | vdict d => "\x7b" ++ pyReprDict d ++ "\x7d"

/-- Comma-joined `repr`s of the elements of a list. -/
def pyReprList : List Val → String
  | [] => ""
  | [x] => pyRepr x
  | x :: xs => pyRepr x ++ ", " ++ pyReprList xs

/-- Comma-joined `'key': repr(value)` entries of a dict. -/
def pyReprDict : List (String × Val) → String
  | [] => ""
  | [(k, v)] => "'" ++ k ++ "': " ++ pyRepr v
  | (k, v) :: xs => "'" ++ k ++ "': " ++ pyRepr v ++ ", " ++ pyReprDict xs

end

/-- Python `str(v)`: identity on strings, `repr` otherwise. -/
def pyStr : Val → String
  | vstr s => s
  | v => pyRepr v

/-- Python `==` on the scalar values compared by the source
(`val in (None, "", 0, "0")`); `False == 0` and `True == 1` hold. -/
def pyEq : Val → Val → Bool
  | vnull, vnull => true
  | vbool a, vbool b => a == b
  | vbool a, vint n => (if a then (1 : Int) else 0) == n
  | vint n, vbool a => (if a then (1 : Int) else 0) == n
  | vint a, vint b => a == b
  | vstr a, vstr b => a == b
  | _, _ => false

/-- Python `str.isdigit` restricted to ASCII: nonempty and all digits. -/
def pyIsdigit (s : String) : Bool :=
  !s.isEmpty && s.toList.all (fun c => c.isDigit)

/-- Python `int(x)` for an int, a bool (a subclass of `int` in Python) or
a digits-only string — the only shapes on which the source applies it. -/
def pyIntOf : Val → Option Int
  | vint n => some n
  | vbool b => some (if b then 1 else 0)
  | vstr s =>
    if pyIsdigit s then some ((s.toList.foldl (fun acc c => 10 * acc + (c.toNat - 48)) 0 : Nat))
    else none
  | _ => none

/-- Python `str.capitalize`: first character upper-cased, rest lower-cased
(ASCII). -/
def pyCapitalize (s : String) : String :=
  match s.toList with
  | [] => ""
  | c :: cs => String.mk (c.toUpper :: cs.map Char.toLower)

/-- Python whitespace characters recognised by `str.strip` (ASCII). -/
def pyIsSpace (c : Char) : Bool :=
  c = ' ' || c = '\t' || c = '\n' || c = '\x0d' || c = '\x0b' || c = '\x0c'

/-- Python `str.strip()` (ASCII whitespace). -/
def pyStrip (s : String) : String :=
  String.mk ((s.toList.dropWhile pyIsSpace).reverse.dropWhile pyIsSpace |>.reverse)

/-- Python `str.upper()` (character-wise, ASCII case mapping). -/
def pyUpper (s : String) : String :=
  String.mk (s.toList.map Char.toUpper)

/-! ### Calendar arithmetic (model of the `datetime` standard library) -/

/-- Proleptic-Gregorian civil date from a count of days since 1970-01-01
(Howard Hinnant's `civil_from_days`, with floor division). -/
def civilFromDays (z0 : Int) : Int × Int × Int :=
  let z := z0 + 719468
  let era := Int.fdiv z 146097
  let doe := z - era * 146097
  let yoe := Int.fdiv (doe - Int.fdiv doe 1460 + Int.fdiv doe 36524 - Int.fdiv doe 146096) 365
  let y := yoe + era * 400
  let doy := doe - (365 * yoe + Int.fdiv yoe 4 - Int.fdiv yoe 100)
  let mp := Int.fdiv (5 * doy + 2) 153
  let d := doy - Int.fdiv (153 * mp + 2) 5 + 1
  let m := mp + (if mp < 10 then 3 else -9)
  (y + (if m ≤ 2 then 1 else 0), m, d)

/-- Days since 1970-01-01 of a proleptic-Gregorian civil date
(Hinnant's `days_from_civil`). -/
def daysFromCivil (y0 m d : Int) : Int :=
  let y := y0 - (if m ≤ 2 then 1 else 0)
  let era := Int.fdiv y 400
  let yoe := y - era * 400
  let mp := Int.fmod (m + 9) 12
  let doy := Int.fdiv (153 * mp + 2) 5 + d - 1
  let doe := yoe * 365 + Int.fdiv yoe 4 - Int.fdiv yoe 100 + doy
  era * 146097 + doe - 719468

/-- Gregorian leap year. -/
def isLeapYear (y : Int) : Bool :=
  y % 4 = 0 && (y % 100 ≠ 0 || y % 400 = 0)

/-- Number of days in a month. -/
def daysInMonth (y m : Int) : Int :=
  if m = 2 then (if isLeapYear y then 29 else 28)
  else if m = 4 ∨ m = 6 ∨ m = 9 ∨ m = 11 then 30
  else 31

/-- Model of a `datetime.datetime` value: civil fields plus an optional
UTC offset in seconds (`none` = naive, `some off` = aware). -/
structure PyDateTime where
  year : Int
  month : Int
  day : Int
  hour : Int
  minute : Int
  second : Int
  us : Int
  tzOffset : Option Int
deriving Repr, DecidableEq

/-- Microseconds since the epoch of a datetime read with the given UTC
offset (in seconds). -/
def PyDateTime.instantUS (dt : PyDateTime) (off : Int) : Int :=
  ((daysFromCivil dt.year dt.month dt.day * 86400
      + dt.hour * 3600 + dt.minute * 60 + dt.second - off) * 1000000) + dt.us

/-- Python `a < b` on datetimes: naive and aware values cannot be
compared (`TypeError`); otherwise instants are compared. -/
def pyDTlt (a b : PyDateTime) : Except String Bool :=
  match a.tzOffset, b.tzOffset with
  | none, none => .ok (decide (a.instantUS 0 < b.instantUS 0))
  | some x, some y => .ok (decide (a.instantUS x < b.instantUS y))
  | _, _ => .error "TypeError: cannot compare offset-naive and offset-aware datetimes"

/-- Zero-pad the decimal representation of `n` to `w` digits. -/
def padNum (w : Nat) (n : Nat) : String :=
  let s := toString n
  String.mk (List.replicate (w - s.length) '0') ++ s

/-- `dt.date().isoformat()`: the (offset-unconverted) calendar date of a
datetime as `YYYY-MM-DD`. -/
def PyDateTime.dateIso (dt : PyDateTime) : String :=
  padNum 4 dt.year.toNat ++ "-" ++ padNum 2 dt.month.toNat ++ "-" ++ padNum 2 dt.day.toNat

/-- `datetime.fromtimestamp(t, tz=timezone.utc)`: `none` models the
`OverflowError`/`ValueError` raised outside the representable range
(years 1–9999). -/
def fromtimestampUTC (t : Int) : Option PyDateTime :=
  if -62135596800 ≤ t ∧ t ≤ 253402300799 then
    let days := Int.fdiv t 86400
    let sod := t - 86400 * days
    let c := civilFromDays days
    some ⟨c.1, c.2.1, c.2.2, Int.fdiv sod 3600, Int.fdiv (Int.fmod sod 3600) 60,
          Int.fmod sod 60, 0, some 0⟩
  else
    none

/-! ### `datetime.strptime` for the five formats used by `parse_date_maybe`
(faithful to CPython's `_strptime` regexes, ASCII input; sub-second parts
of a `%z` offset are parsed but their value is dropped). -/

/-- Numeric value of an ASCII digit. -/
def digitVal (c : Char) : Nat := c.toNat - 48

/-- `%Y`: exactly four digits. -/
def scanY : List Char → Option (Nat × List Char)
  | a :: b :: c :: d :: rest =>
    if a.isDigit && b.isDigit && c.isDigit && d.isDigit then
      some (1000 * digitVal a + 100 * digitVal b + 10 * digitVal c + digitVal d, rest)
    else none
  | _ => none

/-- Two-or-one-digit field, longest alternative first, mirroring a CPython
`_strptime` alternation: `twoOk a b` says the two-digit form is allowed,
`oneOk a` the one-digit form. -/
def scan21 (twoOk : Char → Char → Bool) (oneOk : Char → Bool) :
    List Char → Option (Nat × List Char)
  | a :: b :: rest =>
    if twoOk a b then some (10 * digitVal a + digitVal b, rest)
    else if oneOk a then some (digitVal a, b :: rest)
    else none
  | [a] => if oneOk a then some (digitVal a, []) else none
  | [] => none

/-- `%m`: `1[0-2]|0[1-9]|[1-9]`. -/
def scanMonth : List Char → Option (Nat × List Char) :=
  scan21 (fun a b => (a = '1' && '0' ≤ b && b ≤ '2') || (a = '0' && '1' ≤ b && b ≤ '9'))
    (fun a => '1' ≤ a && a ≤ '9')

/-- `%d`: `3[01]|[12]\d|0[1-9]|[1-9]`. -/
def scanDay : List Char → Option (Nat × List Char) :=
  scan21 (fun a b => (a = '3' && (b = '0' || b = '1'))
      || ((a = '1' || a = '2') && b.isDigit)
      || (a = '0' && '1' ≤ b && b ≤ '9'))
    (fun a => '1' ≤ a && a ≤ '9')

/-- `%H`: `2[0-3]|[0-1]\d|\d`. -/
def scanHour : List Char → Option (Nat × List Char) :=
  scan21 (fun a b => (a = '2' && '0' ≤ b && b ≤ '3') || ((a = '0' || a = '1') && b.isDigit))
    Char.isDigit

/-- `%M`: `[0-5]\d|\d`. -/
def scanMin : List Char → Option (Nat × List Char) :=
  scan21 (fun a b => '0' ≤ a && a ≤ '5' && b.isDigit) Char.isDigit

/-- `%S`: `6[0-1]|[0-5]\d|\d` (values 60–61 are later rejected by the
`datetime` constructor). -/
def scanSec : List Char → Option (Nat × List Char) :=
  scan21 (fun a b => (a = '6' && (b = '0' || b = '1'))
      || ('0' ≤ a && a ≤ '5' && b.isDigit))
    Char.isDigit

/-- A literal format character (`strptime` matches case-insensitively). -/
def expectLit (c : Char) : List Char → Option (List Char)
  | x :: rest => if x.toLower = c.toLower then some rest else none
  | [] => none

/-- `%f`: one to six digits, right-padded to microseconds. -/
def scanFrac (cs : List Char) : Option (Nat × List Char) :=
  let ds := (cs.takeWhile Char.isDigit).take 6
  if ds.isEmpty then none
  else
    let v := ds.foldl (fun acc c => 10 * acc + digitVal c) 0
    some (v * 10 ^ (6 - ds.length), cs.drop ds.length)

/-- `%z`: `[+-]\d\d:?[0-5]\d(:?[0-5]\d(\.\d{1,6})?)?|Z`, returning the
offset in seconds (any fractional-second digits are consumed, value
dropped). -/
def scanTZ : List Char → Option (Int × List Char)
  | 'Z' :: rest => some (0, rest)
  | s :: h1 :: h2 :: rest0 =>
    if (s = '+' || s = '-') && h1.isDigit && h2.isDigit then
      let hh := 10 * digitVal h1 + digitVal h2
      let rest1 := match rest0 with
        | ':' :: r => r
        | r => r
      match rest1 with
      | m1 :: m2 :: rest2 =>
        if '0' ≤ m1 && m1 ≤ '5' && m2.isDigit then
          let mm := 10 * digitVal m1 + digitVal m2
          let secPart : Option (Nat × List Char) :=
            let rest3 := match rest2 with
              | ':' :: r => r
              | r => r
            match rest3 with
            | s1 :: s2 :: rest4 =>
              if '0' ≤ s1 && s1 ≤ '5' && s2.isDigit then
                let ss := 10 * digitVal s1 + digitVal s2
                match rest4 with
                | '.' :: rest5 =>
                  match scanFrac rest5 with
                  | some (_, rest6) => some (ss, rest6)
                  | none => some (ss, '.' :: rest5)
                | r => some (ss, r)
              else none
            | _ => none
          let (ss, rest') := match secPart with
            | some p => p
            | none => (0, rest2)
          let mag : Int := (hh * 3600 + mm * 60 + ss : Nat)
          some (if s = '-' then -mag else mag, rest')
        else none
      | _ => none
    else none
  | _ => none

/-- The `datetime(...)` constructor's validation at the end of a
successful `strptime` match: year 1–9999, day within the month, second
at most 59, `%z` offset strictly within ±24 h. -/
def mkDT (y m d hh mi ss us : Nat) (tz : Option Int) : Option PyDateTime :=
  if 1 ≤ y ∧ (d : Int) ≤ daysInMonth y m ∧ ss ≤ 59 ∧
      (match tz with
       | some o => decide (o.natAbs < 86400)
       | none => true) = true then
    some ⟨y, m, d, hh, mi, ss, us, tz⟩
  else none

/-- Shared `%Y-%m-%d<sep>%H:%M:%S` prefix of formats 2–5. -/
def scanYmdHms (sep : Char) (cs : List Char) :
    Option ((Nat × Nat × Nat × Nat × Nat × Nat) × List Char) := do
  let (y, r) ← scanY cs
  let r ← expectLit '-' r
  let (m, r) ← scanMonth r
  let r ← expectLit '-' r
  let (d, r) ← scanDay r
  let r ← expectLit sep r
  let (hh, r) ← scanHour r
  let r ← expectLit ':' r
  let (mi, r) ← scanMin r
  let r ← expectLit ':' r
  let (ss, r) ← scanSec r
  pure ((y, m, d, hh, mi, ss), r)

/-- `strptime(s, "%Y-%m-%d")`. -/
def strptimeD (s : String) : Option PyDateTime := do
  let (y, r) ← scanY s.toList
  let r ← expectLit '-' r
  let (m, r) ← scanMonth r
  let r ← expectLit '-' r
  let (d, r) ← scanDay r
  if r.isEmpty then mkDT y m d 0 0 0 0 none else none

/-- `strptime(s, "%Y-%m-%dT%H:%M:%S%z")`. -/
def strptimeTZ (s : String) : Option PyDateTime := do
  let ((y, m, d, hh, mi, ss), r) ← scanYmdHms 'T' s.toList
  let (off, r) ← scanTZ r
  if r.isEmpty then mkDT y m d hh mi ss 0 (some off) else none

/-- `strptime(s, "%Y-%m-%dT%H:%M:%S.%f%z")`. -/
def strptimeFracTZ (s : String) : Option PyDateTime := do
  let ((y, m, d, hh, mi, ss), r) ← scanYmdHms 'T' s.toList
  let r ← expectLit '.' r
  let (us, r) ← scanFrac r
  let (off, r) ← scanTZ r
  if r.isEmpty then mkDT y m d hh mi ss us (some off) else none

/-- `strptime(s, "%Y-%m-%dT%H:%M:%S")`. -/
def strptimeT (s : String) : Option PyDateTime := do
  let ((y, m, d, hh, mi, ss), r) ← scanYmdHms 'T' s.toList
  if r.isEmpty then mkDT y m d hh mi ss 0 none else none

/-- `strptime(s, "%Y-%m-%d %H:%M:%S")`. -/
def strptimeSp (s : String) : Option PyDateTime := do
  let ((y, m, d, hh, mi, ss), r) ← scanYmdHms ' ' s.toList
  if r.isEmpty then mkDT y m d hh mi ss 0 none else none

/-- `parse_date_maybe` (logic.py:142): falsy input → `None`; else the five
formats in order; else, for a digits-only rendering, an epoch-seconds
timestamp; `None` on failure. -/
def parse_date_maybe (s : Val) : Option PyDateTime :=
  if !s.truthy then none
  else
    let str := pyStr s
    strptimeD str <|> strptimeTZ str <|> strptimeFracTZ str <|>
      strptimeT str <|> strptimeSp str <|>
      (if pyIsdigit str then
        match pyIntOf s with
        | some n => fromtimestampUTC n
        | none => none
      else none)

/-! ### JSON (model of the `json` standard library, over the `Val`
universe: numbers are integers — a record containing a floating-point
literal is outside the modelled value universe and fails the parse). -/

/-- JSON insignificant whitespace. -/
def jsonWS (cs : List Char) : List Char :=
  cs.dropWhile (fun c => c = ' ' || c = '\t' || c = '\n' || c = '\x0d')

/-- Hex digit value, if any. -/
def hexVal (c : Char) : Option Nat :=
  if '0' ≤ c ∧ c ≤ '9' then some (c.toNat - 48)
  else if 'a' ≤ c ∧ c ≤ 'f' then some (c.toNat - 87)
  else if 'A' ≤ c ∧ c ≤ 'F' then some (c.toNat - 55)
  else none

/-- One character (or escape sequence) of a JSON string body in strict
mode: `(none, r)` signals the closing quote, raw control characters are
rejected. -/
def jsonUnescapeStep : List Char → Option (Option Char × List Char)
  | [] => none
  | '"' :: r => some (none, r)
  | '\\' :: e :: r =>
    match e, r with
    | '"', _ => some (some '"', r)
    | '\\', _ => some (some '\\', r)
    | '/', _ => some (some '/', r)
    | 'b', _ => some (some '\x08', r)
    | 'f', _ => some (some '\x0c', r)
    | 'n', _ => some (some '\n', r)
    | 'r', _ => some (some '\x0d', r)
    | 't', _ => some (some '\t', r)
    | 'u', a :: b :: c :: d :: r' =>
      match hexVal a, hexVal b, hexVal c, hexVal d with
      | some x1, some x2, some x3, some x4 =>
        let n := ((x1 * 16 + x2) * 16 + x3) * 16 + x4
        if n.isValidChar then some (some (Char.ofNat n), r') else none
      | _, _, _, _ => none
    | _, _ => none
  | c :: r => if c.toNat < 32 then none else some (some c, r)

/-- Body of a JSON string after the opening quote (fuel-indexed; the fuel
supplied by `jsonStringChars` always suffices, each step consuming at
least one character). -/
def jsonStringCharsF : Nat → List Char → Option (List Char × List Char)
  | 0, _ => none
  | fuel + 1, cs =>
    match jsonUnescapeStep cs with
    | some (none, r) => some ([], r)
    | some (some c, r) =>
      match jsonStringCharsF fuel r with
      | some (cs', r') => some (c :: cs', r')
      | none => none
    | none => none

/-- Body of a JSON string after the opening quote. -/
def jsonStringChars (cs : List Char) : Option (List Char × List Char) :=
  jsonStringCharsF (cs.length + 1) cs

/-- A JSON integer literal (leading-zero rule enforced; a following `.`,
`e` or `E` would denote a float, outside the modelled universe). -/
def jsonInt (cs : List Char) : Option (Int × List Char) :=
  let core (ds : List Char) (rest : List Char) : Option (Nat × List Char) :=
    match ds with
    | [] => none
    | '0' :: _ :: _ => none
    | _ => some (ds.foldl (fun acc c => 10 * acc + digitVal c) 0, rest)
  let scan (cs : List Char) : Option (Nat × List Char) :=
    let ds := cs.takeWhile Char.isDigit
    core ds (cs.drop ds.length)
  let signed : Option (Int × List Char) :=
    match cs with
    | '-' :: r =>
      match scan r with
      | some (n, rest) => some (-(n : Int), rest)
      | none => none
    | _ =>
      match scan cs with
      | some (n, rest) => some ((n : Int), rest)
      | none => none
  match signed with
  | some (n, rest) =>
    match rest with
    | '.' :: _ => none
    | 'e' :: _ => none
    | 'E' :: _ => none
    | _ => some (n, rest)
  | none => none

mutual

/-- A JSON value (fuel-indexed recursive-descent parser). -/
def jsonVal : Nat → List Char → Option (Val × List Char)
  | 0, _ => none
  | fuel + 1, cs =>
    match jsonWS cs with
    | 'n' :: 'u' :: 'l' :: 'l' :: r => some (Val.vnull, r)
    | 't' :: 'r' :: 'u' :: 'e' :: r => some (Val.vbool true, r)
    | 'f' :: 'a' :: 'l' :: 's' :: 'e' :: r => some (Val.vbool false, r)
    | '"' :: r =>
      match jsonStringChars r with
      | some (cs', r') => some (Val.vstr (String.mk cs'), r')
      | none => none
    | '[' :: r =>
      match jsonWS r with
      | ']' :: r' => some (Val.vlist [], r')
      | r' =>
        match jsonVal fuel r' with
        | some (v, r'') =>
          match jsonArrTail fuel [v] r'' with
          | some (vs, r3) => some (Val.vlist vs, r3)
          | none => none
        | none => none
    | '\x7b' :: r =>
      match jsonWS r with
      | '\x7d' :: r' => some (Val.vdict [], r')
      | r' =>
        match jsonMember fuel r' with
        | some (kv, r'') =>
          match jsonObjTail fuel [kv] r'' with
          | some (kvs, r3) => some (Val.vdict kvs, r3)
          | none => none
        | none => none
    | cs' =>
      match jsonInt cs' with
      | some (n, r) => some (Val.vint n, r)
      | none => none

/-- Remaining elements of a JSON array after the first. -/
def jsonArrTail : Nat → List Val → List Char → Option (List Val × List Char)
  | 0, _, _ => none
  | fuel + 1, acc, cs =>
    match jsonWS cs with
    | ']' :: r => some (acc.reverse, r)
    | ',' :: r =>
      match jsonVal fuel r with
      | some (v, r') => jsonArrTail fuel (v :: acc) r'
      | none => none
    | _ => none

/-- One `"key": value` member of a JSON object. -/
def jsonMember : Nat → List Char → Option ((String × Val) × List Char)
  | 0, _ => none
  | fuel + 1, cs =>
    match jsonWS cs with
    | '"' :: r =>
      match jsonStringChars r with
      | some (kcs, r') =>
        match jsonWS r' with
        | ':' :: r'' =>
          match jsonVal fuel r'' with
          | some (v, r3) => some ((String.mk kcs, v), r3)
          | none => none
        | _ => none
      | none => none
    | _ => none

/-- Remaining members of a JSON object after the first. -/
def jsonObjTail : Nat → List (String × Val) → List Char →
    Option (List (String × Val) × List Char)
  | 0, _, _ => none
  | fuel + 1, acc, cs =>
    match jsonWS cs with
    | '\x7d' :: r => some (acc.reverse, r)
    | ',' :: r =>
      match jsonMember fuel r with
      | some (kv, r') => jsonObjTail fuel (kv :: acc) r'
      | none => none
    | _ => none

end

/-- `json.loads`: parse a complete document, `none` on any error. -/
def jsonLoads (s : String) : Option Val :=
  match jsonVal (s.length + 1) s.toList with
  | some (v, r) => if (jsonWS r).isEmpty then some v else none
  | none => none

/-- JSON string escaping (`ensure_ascii=False`). -/
def jsonEscape (s : String) : String :=
  String.join (s.toList.map fun c =>
    if c = '"' then "\\\""
    else if c = '\\' then "\\\\"
    else if c = '\n' then "\\n"
    else if c = '\t' then "\\t"
    else if c = '\x0d' then "\\r"
    else if c.toNat < 32 then
      "\\u00" ++ String.mk [(Nat.digitChar (c.toNat / 16)), (Nat.digitChar (c.toNat % 16))]
    else String.mk [c])

mutual

/-- `json.dumps(v, ensure_ascii=False)` with the default separators. -/
def jsonDumps : Val → String
  | Val.vnull => "null"
  | Val.vbool b => if b then "true" else "false"
  | Val.vint n => toString n
  | Val.vstr s => "\"" ++ jsonEscape s ++ "\""
  | Val.vlist xs => "[" ++ jsonDumpsList xs ++ "]"
  | Val.vdict d => "\x7b" ++ jsonDumpsDict d ++ "\x7d"

/-- Comma-joined dumps of array elements. -/
def jsonDumpsList : List Val → String
  | [] => ""
  | [x] => jsonDumps x
  | x :: xs => jsonDumps x ++ ", " ++ jsonDumpsList xs

/-- Comma-joined dumps of object members. -/
def jsonDumpsDict : List (String × Val) → String
  | [] => ""
  | [(k, v)] => "\"" ++ jsonEscape k ++ "\": " ++ jsonDumps v
  | (k, v) :: xs => "\"" ++ jsonEscape k ++ "\": " ++ jsonDumps v ++ ", " ++ jsonDumpsDict xs

end

/-! ### URL builder (logic.py:97) -/

/-- UTF-8 bytes of a character. -/
def utf8Encode (c : Char) : List Nat :=
  let n := c.toNat
  if n < 0x80 then [n]
  else if n < 0x800 then [0xC0 + n / 64, 0x80 + n % 64]
  else if n < 0x10000 then [0xE0 + n / 4096, 0x80 + (n / 64) % 64, 0x80 + n % 64]
  else [0xF0 + n / 262144, 0x80 + (n / 4096) % 64, 0x80 + (n / 64) % 64, 0x80 + n % 64]

/-- The upper-case hex digit alphabet. -/
def HEX_DIGITS : List Char :=
  ['0', '1', '2', '3', '4', '5', '6', '7', '8', '9', 'A', 'B', 'C', 'D', 'E', 'F']

/-- Upper-case hex digit (only indices 0–15 occur). -/
def hexUpper (n : Nat) : Char := HEX_DIGITS.getD n '0'

/-- Encoding of one character under `quote_plus`: a space becomes `+`,
ASCII alphanumerics and `_.-~` pass through, everything else is
percent-encoded per UTF-8 byte. -/
def quotePlusChar (c : Char) : List Char :=
  if c = ' ' then ['+']
  else if c.isAlphanum || c = '_' || c = '.' || c = '-' || c = '~' then [c]
  else (utf8Encode c).flatMap fun b => ['%', hexUpper (b / 16), hexUpper (b % 16)]

/-- `urllib.parse.quote_plus` with default arguments. -/
def quote_plus (s : String) : String :=
  String.mk (s.toList.flatMap quotePlusChar)

/-- `build_fb_ads_library_url` (logic.py:97). -/
def build_fb_ads_library_url (country keyword ad_type active_status search_mode : String) :
    String :=
  let country := pyUpper (pyStrip country)
  let q := quote_plus (pyStrip keyword)
  "https://www.facebook.com/ads/library/?" ++
    "active_status=" ++ active_status ++ "&" ++
    "ad_type=" ++ ad_type ++ "&" ++
    "country=" ++ country ++ "&" ++
    "is_targeted_country=false&" ++
    "media_type=all&" ++
    "q=" ++ q ++ "&" ++
    "search_type=" ++ search_mode

/-! ### Status detection (logic.py:176) -/

/-- The ordered candidate status-bearing keys of `detect_status`. -/
def STATUS_KEYS : List String := ["activeStatus", "status", "adStatus", "active_status"]

/-- The first non-`None` value among the candidate status keys. -/
def firstStatusVal (item : PyDict) : Option Val :=
  STATUS_KEYS.findSome? (fun k =>
    match dictGet item k with
    | Val.vnull => none
    | v => some v)

/-- `detect_status` (logic.py:176), relative to the current instant `now`
(an aware UTC datetime, as produced by `datetime.now(timezone.utc)`).
The comparison `end_dt < now` is not guarded: a naive parsed end date
raises `TypeError`, modelled by the `Except.error` branch. -/
def detect_status (item : PyDict) (now : PyDateTime) : Except String String :=
  match firstStatusVal item with
  | some v => .ok (pyCapitalize (pyStr v))
  | none =>
    match dictGet item "is_active" with
    | Val.vbool false => .ok "Inactive"
    | _ =>
      let endv := pyOr (dictGet item "endDate") (dictGet item "end_date")
      match parse_date_maybe endv with
      | some endDt =>
        match pyDTlt endDt now with
        | .error e => .error e
        | .ok b => .ok (if b then "Inactive" else "Active")
      | none => .ok "Active"

/-! ### Snapshot and media helpers (logic.py:193) -/

/-- `_get_snapshot_dict` (logic.py:193): decode a string-encoded snapshot,
degrade to the empty dict on failure or on a non-dict value. -/
def _get_snapshot_dict (item : PyDict) : PyDict :=
  let snap := dictGet item "snapshot"
  let snap :=
    match snap with
    | Val.vstr s =>
      match jsonLoads s with
      | some v => v
      | none => Val.vdict []
    | v => v
  match snap with
  | Val.vdict d => d
  | _ => []

/-- The image-URL alias keys probed inside a snapshot image entry. -/
def SNAP_IMG_KEYS : List String :=
  ["original_image_url", "original_picture_url", "original_picture", "url", "src"]

/-- `get_original_image_url` (logic.py:205). -/
def get_original_image_url (item : PyDict) : Option Val :=
  let snap := _get_snapshot_dict item
  let imgs : List Val :=
    match dictGet snap "images" with
    | Val.vdict d => [Val.vdict d]
    | Val.vlist xs => xs
    | _ => []
  imgs.findSome? (fun im =>
    match im with
    | Val.vdict d =>
      SNAP_IMG_KEYS.findSome? (fun k =>
        let v := dictGet d k
        if v.truthy then some v else none)
    | _ => none)

/-- The direct image-key aliases of `extract_primary_media`. -/
def IMG_KEYS : List String := ["imageUrl", "image_url", "thumbnailUrl", "thumbnail_url", "image"]

/-- The direct video-key aliases of `extract_primary_media`. -/
def VID_KEYS : List String := ["videoUrl", "video_url", "video"]

/-- First truthy value among the given keys of a dict. -/
def firstTruthy (d : PyDict) (keys : List String) : Option Val :=
  keys.findSome? (fun k =>
    let v := dictGet d k
    if v.truthy then some v else none)

/-- `extract_primary_media` (logic.py:222): `none` models the
`(None, None)` result. -/
def extract_primary_media (item : PyDict) : Option (String × Val) :=
  let step2 : Option (String × Val) :=
    match firstTruthy item IMG_KEYS with
    | some v => some ("image", v)
    | none =>
      match firstTruthy item VID_KEYS with
      | some v => some ("video", v)
      | none =>
        let creatives := pyOr (pyOr (dictGet item "creatives") (dictGet item "media"))
          (Val.vlist [])
        let clist : List Val :=
          match creatives with
          | Val.vdict d => [Val.vdict d]
          | Val.vlist xs => xs
          | _ => []
        let fromCreatives := clist.findSome? (fun c =>
          match c with
          | Val.vdict d =>
            match firstTruthy d IMG_KEYS with
            | some v => some (("image", v) : String × Val)
            | none =>
              match firstTruthy d VID_KEYS with
              | some v => some (("video", v) : String × Val)
              | none => none
          | _ => none)
        match fromCreatives with
        | some p => some p
        | none =>
          match pyOr (dictGet item "mediaUrls") (dictGet item "media_urls") with
          | Val.vlist (x :: _) => some ("image", x)
          | _ => none
  match get_original_image_url item with
  | some oi => if oi.truthy then some ("image", oi) else step2
  | none => step2

/-! ### Text summarization (logic.py:256) -/

/-- Python `s[:k]` (one-sided slice with a possibly negative bound). -/
def pySlice (s : String) (k : Int) : String :=
  if 0 ≤ k then String.mk (s.toList.take k.toNat)
  else String.mk (s.toList.take (s.length - k.natAbs))

/-- `.replace("\n", " ")`: for a single-character pattern and
single-character replacement this is the character-wise map. -/
def replaceNl (s : String) : String :=
  String.mk (s.toList.map fun c => if c = '\n' then ' ' else c)

/-- `summarize_text` (logic.py:256). -/
def summarize_text (txt : Val) (length : Int) : String :=
  if !txt.truthy then ""
  else
    let t := replaceNl (pyStrip (pyStr txt))
    if (t.length : Int) > length then pySlice t (length - 1) ++ "…" else t

/-! ### Curated field extraction (logic.py:387) -/

/-- `isinstance(val, (int, float))` over the modelled universe: Python
`bool` is a subclass of `int`; floats do not occur. -/
def isPyNumber : Val → Bool
  | Val.vint _ => true
  | Val.vbool _ => true
  | _ => false

/-- `_coerce_epoch_or_date` (logic.py:417, nested in
`extract_selected_fields`): sentinel values → `None`; a numeric value is
read as an epoch-seconds timestamp first (falling through on failure),
then the string-date formats.  `dt.replace(tzinfo=utc)` on a naive parse
does not change the civil fields, so `dt.date().isoformat()` is
`dateIso` in both branches. -/
def _coerce_epoch_or_date (val : Val) : Option String :=
  if [Val.vnull, Val.vstr "", Val.vint 0, Val.vstr "0"].any (fun c => pyEq val c) then none
  else
    let numeric : Option String :=
      if isPyNumber val || pyIsdigit (pyStr val) then
        match pyIntOf val with
        | some n =>
          match fromtimestampUTC n with
          | some dt => some dt.dateIso
          | none => none
        | none => none
      else none
    match numeric with
    | some s => some s
    | none =>
      match parse_date_maybe val with
      | some dt => some dt.dateIso
      | none => none

/-- The fixed-schema projection returned by `extract_selected_fields`. -/
structure Curated where
  ad_archive_id : Val
  categories : Val
  collation_count : Val
  collation_id : Val
  start_date : Val
  end_date : Val
  entity_type : Val
  is_active : Val
  page_id : Val
  page_name : Val
  cta_text : Val
  cta_type : Val
  link_url : Val
  page_entity_type : Val
  page_profile_picture_url : Val
  page_profile_uri : Val
  state_media_run_label : Val
  total_active_time : Val
  original_image_url : Val
  original_picture_url : Val
deriving Repr

/-- First-of-list-if-dict / single-dict / null resolution used for
`cards` and `page_categories` (an empty list or a list whose head is not
a dict resolves to `None`). -/
def firstDictOf : Val → Option PyDict
  | Val.vlist (Val.vdict d :: _) => some d
  | Val.vlist _ => none
  | Val.vdict d => some d
  | _ => none

/-- `card0.get(k) if isinstance(card0, dict) else None`. -/
def optDictGet (d : Option PyDict) (k : String) : Val :=
  match d with
  | some d => dictGet d k
  | none => Val.vnull

/-- An optional ISO string as the stored field value (`None` → null). -/
def optStrVal : Option String → Val
  | some s => Val.vstr s
  | none => Val.vnull

/-- `extract_selected_fields` (logic.py:387). -/
def extract_selected_fields (item : PyDict) : Curated :=
  let snap := _get_snapshot_dict item
  let card0 := firstDictOf (dictGet snap "cards")
  let pgcat0 := firstDictOf (dictGet snap "page_categories")
  let link_url0 := dictGet snap "link_url"
  let link_url :=
    if !link_url0.truthy then
      match card0 with
      | some d => dictGet d "link_url"
      | none => link_url0
    else link_url0
  let start_date := _coerce_epoch_or_date (pyOr (dictGet item "start_date") (dictGet item "startDate"))
  let end_date := _coerce_epoch_or_date (pyOr (dictGet item "end_date") (dictGet item "endDate"))
  let categories_disp :=
    match dictGet item "categories" with
    | Val.vlist xs => Val.vstr (String.intercalate ", " (xs.map pyStr))
    | v => v
  { ad_archive_id := pyOr (dictGet item "ad_archive_id") (dictGet item "adId")
    categories := categories_disp
    collation_count := dictGet item "collation_count"
    collation_id := dictGet item "collation_id"
    start_date := optStrVal start_date
    end_date := optStrVal end_date
    entity_type := dictGet item "entity_type"
    is_active := dictGet item "is_active"
    page_id := pyOr (dictGet item "page_id") (dictGet item "pageId")
    page_name := pyOr (dictGet item "page_name") (dictGet item "pageName")
    cta_text := pyOr (optDictGet card0 "cta_text") (dictGet snap "cta_text")
    cta_type := pyOr (optDictGet card0 "cta_type") (dictGet snap "cta_type")
    link_url := link_url
    page_entity_type := pyOr (optDictGet pgcat0 "page_entity_type") (dictGet item "page_entity_type")
    page_profile_picture_url := pyOr (dictGet item "page_profile_picture_url") (dictGet snap "page_profile_picture_url")
    page_profile_uri := pyOr (dictGet item "page_profile_uri") (dictGet snap "page_profile_uri")
    state_media_run_label := dictGet item "state_media_run_label"
    total_active_time := dictGet item "total_active_time"
    original_image_url := (get_original_image_url item).getD Val.vnull
    original_picture_url := (get_original_image_url item).getD Val.vnull }

/-! ### Collection store (logic.py:266–373)

SQLite is modelled by an in-memory state: one list of rows per created
table plus a logical clock supplying `CURRENT_TIMESTAMP` (`saved_at`).
Each insert happens at a strictly later instant than the previous one —
the single-threaded, request-per-interaction model of the system; row
identity follows `AUTOINCREMENT` (one more than the largest id ever
used, which for this append-only store is the largest id present). -/

/-- The closed set of collection names (logic.py:54). -/
def TEAM_TABLES : List String := ["team1", "team2", "team3"]

/-- One persisted row of a team table (schema of logic.py:266). -/
structure TeamRow where
  id : Nat
  ad_archive_id : Val
  categories : Val
  collation_count : Val
  collation_id : Val
  start_date : Val
  end_date : Val
  entity_type : Val
  is_active : Val
  page_id : Val
  page_name : Val
  cta_text : Val
  cta_type : Val
  link_url : Val
  page_entity_type : Val
  page_profile_picture_url : Val
  page_profile_uri : Val
  state_media_run_label : Val
  total_active_time : Val
  original_image_url : Val
  raw_json : Val
  saved_at : Nat
deriving Repr

/-- The database: created tables and the logical clock. -/
structure DBState where
  tables : List (String × List TeamRow)
  clock : Nat
deriving Repr

/-- A database file that does not exist yet. -/
def emptyDB : DBState := ⟨[], 0⟩

/-- `init_db` (logic.py:298): `CREATE TABLE IF NOT EXISTS` for each team
table — idempotent, existing tables untouched. -/
def init_db (st : DBState) : DBState :=
  { st with
    tables := TEAM_TABLES.foldl
      (fun ts t => if ts.any (fun p => p.1 == t) then ts else ts ++ [(t, [])])
      st.tables }

/-- The rows of a created table, if the table exists. -/
def getTable (name : String) (ts : List (String × List TeamRow)) : Option (List TeamRow) :=
  match ts.find? (fun p => p.1 == name) with
  | some p => some p.2
  | none => none

/-- Replace the rows of one table. -/
def setTable (name : String) (rows : List TeamRow) :
    List (String × List TeamRow) → List (String × List TeamRow)
  | [] => []
  | (n, rs) :: ts => if n == name then (n, rows) :: ts else (n, rs) :: setTable name rows ts

/-- `AUTOINCREMENT`: one more than the largest id present. -/
def nextRowId (rows : List TeamRow) : Nat :=
  (rows.foldl (fun m r => max m r.id) 0) + 1

/-- The row `db_insert_team` appends: the column values of
logic.py:320–341, with `id` assigned by `AUTOINCREMENT` and `saved_at`
by `CURRENT_TIMESTAMP`; `is_active` stored as `int(bool(x))` when
present, SQL `NULL` when the field is absent/`None`; the raw record
serialized as its JSON text. -/
def mkInsertRow (ad_fields : PyDict) (raw_item : Option Val) (rows : List TeamRow)
    (clock : Nat) : TeamRow :=
  { id := nextRowId rows
    ad_archive_id := dictGet ad_fields "ad_archive_id"
    categories := dictGet ad_fields "categories"
    collation_count := dictGet ad_fields "collation_count"
    collation_id := dictGet ad_fields "collation_id"
    start_date := dictGet ad_fields "start_date"
    end_date := dictGet ad_fields "end_date"
    entity_type := dictGet ad_fields "entity_type"
    is_active :=
      match dictGet ad_fields "is_active" with
      | Val.vnull => Val.vnull
      | v => Val.vint (if v.truthy then 1 else 0)
    page_id := dictGet ad_fields "page_id"
    page_name := dictGet ad_fields "page_name"
    cta_text := dictGet ad_fields "cta_text"
    cta_type := dictGet ad_fields "cta_type"
    link_url := dictGet ad_fields "link_url"
    page_entity_type := dictGet ad_fields "page_entity_type"
    page_profile_picture_url := dictGet ad_fields "page_profile_picture_url"
    page_profile_uri := dictGet ad_fields "page_profile_uri"
    state_media_run_label := dictGet ad_fields "state_media_run_label"
    total_active_time := dictGet ad_fields "total_active_time"
    original_image_url := dictGet ad_fields "original_image_url"
    raw_json :=
      match raw_item with
      | some r => Val.vstr (jsonDumps r)
      | none => Val.vnull
    saved_at := clock }

/-- `db_insert_team` (logic.py:309): name validation, then a durable
append of `mkInsertRow`. -/
def db_insert_team (table : String) (ad_fields : PyDict) (raw_item : Option Val)
    (st : DBState) : Except String Unit × DBState :=
  if table ∉ TEAM_TABLES then
    (.error ("Invalid team table: " ++ table), st)
  else
    match getTable table st.tables with
    | none => (.error ("no such table: " ++ table), st)
    | some rows =>
      let row := mkInsertRow ad_fields raw_item rows st.clock
      (.ok (), ⟨setTable table (rows ++ [row]) st.tables, st.clock + 1⟩)

/-- The `ORDER BY saved_at DESC` comparison. -/
def savedAtDesc (a b : TeamRow) : Prop := b.saved_at ≤ a.saved_at

instance : DecidableRel savedAtDesc :=
  fun a b => inferInstanceAs (Decidable (b.saved_at ≤ a.saved_at))

instance : IsTotal TeamRow savedAtDesc :=
  ⟨fun a b => Nat.le_total b.saved_at a.saved_at⟩

instance : IsTrans TeamRow savedAtDesc :=
  ⟨fun _ _ _ h1 h2 => Nat.le_trans h2 h1⟩

/-- Deserialize a row's `raw_json` text back into a mapping where
possible, leaving it as stored otherwise (logic.py:366–371). -/
def decodeRowRaw (r : TeamRow) : TeamRow :=
  match r.raw_json with
  | Val.vstr s =>
    if s ≠ "" then
      match jsonLoads s with
      | some v => { r with raw_json := v }
      | none => r
    else r
  | _ => r

/-- `db_fetch_team` (logic.py:352): name validation, then all rows of the
collection ordered most-recently-saved first, each raw blob decoded. -/
def db_fetch_team (table : String) (st : DBState) : Except String (List TeamRow) :=
  if table ∉ TEAM_TABLES then
    .error ("Invalid team table: " ++ table)
  else
    match getTable table st.tables with
    | none => .error ("no such table: " ++ table)
    | some rows => .ok ((List.insertionSort savedAtDesc rows).map decodeRowRaw)

/-- A reference "current instant": `datetime.now(timezone.utc)` at
2026-10-12 00:00:00 UTC. -/
def nowRef : PyDateTime := ⟨2026, 10, 12, 0, 0, 0, 0, some 0⟩

/-! ## Shared lemmas -/

/-- Every defined result of `_coerce_epoch_or_date` is the ISO rendering
of some calendar date. -/
theorem coerce_shape (v : Val) (s : String) (h : _coerce_epoch_or_date v = some s) :
    ∃ dt : PyDateTime, s = dt.dateIso := by
  unfold _coerce_epoch_or_date at h
  split at h
  · exact absurd h (by simp)
  · dsimp only at h
    split at h
    next heq =>
      split at heq
      · split at heq
        · split at heq
          next dt hdt =>
            exact ⟨dt, by injection h with h'; injection heq with he; rw [← h', ← he]⟩
          · exact absurd heq (by simp)
        · exact absurd heq (by simp)
      · exact absurd heq (by simp)
    · split at h
      next dt hdt => exact ⟨dt, by injection h with h'; rw [← h']⟩
      · exact absurd h (by simp)

/-! ## Claims -/

/-- C2: date coercion maps the epoch integer 1700000000 to "2023-11-14",
the string "2024-03-05" to itself, "not-a-date" to `None`; and whenever a
value is purely numeric (an int, or a digits-only string) and in epoch
range, the epoch-seconds interpretation is returned — string-date parsing
is never consulted. -/
theorem coerce_date_examples_and_epoch_precedence :
    _coerce_epoch_or_date (Val.vint 1700000000) = some "2023-11-14" ∧
    _coerce_epoch_or_date (Val.vstr "2024-03-05") = some "2024-03-05" ∧
    _coerce_epoch_or_date (Val.vstr "not-a-date") = none ∧
    (∀ (v : Val) (n : Int) (dt : PyDateTime),
      (isPyNumber v || pyIsdigit (pyStr v)) = true →
      pyIntOf v = some n →
      fromtimestampUTC n = some dt →
      ([Val.vnull, Val.vstr "", Val.vint 0, Val.vstr "0"].any (fun c => pyEq v c)) = false →
      _coerce_epoch_or_date v = some dt.dateIso) := by
  refine ⟨by decide, by decide, by decide, ?_⟩
  intro v n dt h1 h2 h3 h4
  unfold _coerce_epoch_or_date
  simp only [h4, h1, h2, h3, if_false, if_true, Bool.false_eq_true]

/-- Witness for the epoch-precedence part of C2 at the digits-only string
"1700000000". -/
theorem coerce_date_examples_and_epoch_precedence_witness :
    (isPyNumber (Val.vstr "1700000000") || pyIsdigit (pyStr (Val.vstr "1700000000"))) = true ∧
    pyIntOf (Val.vstr "1700000000") = some 1700000000 ∧
    fromtimestampUTC 1700000000 = some ⟨2023, 11, 14, 22, 13, 20, 0, some 0⟩ ∧
    ([Val.vnull, Val.vstr "", Val.vint 0, Val.vstr "0"].any
      (fun c => pyEq (Val.vstr "1700000000") c)) = false ∧
    _coerce_epoch_or_date (Val.vstr "1700000000") =
      some (PyDateTime.dateIso ⟨2023, 11, 14, 22, 13, 20, 0, some 0⟩) :=
  ⟨by decide, by decide, by decide, by decide,
   coerce_date_examples_and_epoch_precedence.2.2.2 (Val.vstr "1700000000") 1700000000
     ⟨2023, 11, 14, 22, 13, 20, 0, some 0⟩
     (by decide) (by decide) (by decide) (by decide)⟩

/-- C10: the sentinel values 0, "0", "" and `None` all coerce to `None`
(epoch 0 is treated as absent, not as 1970-01-01), and the date parser
returns `None` for every falsy input. -/
theorem coerce_sentinels_and_parse_falsy :
    _coerce_epoch_or_date (Val.vint 0) = none ∧
    _coerce_epoch_or_date (Val.vstr "0") = none ∧
    _coerce_epoch_or_date (Val.vstr "") = none ∧
    _coerce_epoch_or_date Val.vnull = none ∧
    (∀ v : Val, v.truthy = false → parse_date_maybe v = none) := by
  refine ⟨by decide, by decide, by decide, by decide, ?_⟩
  intro v h
  unfold parse_date_maybe
  simp [h]

/-- Witness for the falsy-input part of C10 at the empty list. -/
theorem coerce_sentinels_and_parse_falsy_witness :
    Val.truthy (Val.vlist []) = false ∧ parse_date_maybe (Val.vlist []) = none :=
  ⟨by decide, coerce_sentinels_and_parse_falsy.2.2.2.2 (Val.vlist []) (by decide)⟩

/-- C1 counterexample: a raw record whose `categories` value is the
integer 42 yields a curated `categories` that is neither null nor a
string — pass-through fields keep the raw value's type, so the curated
record is not fully typed as documented. -/
theorem curated_projection_typing_counterexample :
    (extract_selected_fields [("categories", Val.vint 42)]).categories = Val.vint 42 ∧
    Val.isNull (extract_selected_fields [("categories", Val.vint 42)]).categories = false ∧
    Val.isStr (extract_selected_fields [("categories", Val.vint 42)]).categories = false :=
  ⟨rfl, rfl, rfl⟩

/-- C1 as amended: the projection is a total function of the raw record;
its two date fields are always null or an ISO-rendered calendar date, and
`categories` is the comma-joined display string whenever the raw value is
a list; other fields pass the raw value through unchanged (so they carry
whatever type the raw record had). -/
theorem curated_projection_dates_iso_and_passthrough :
    ∀ item : PyDict,
      ((extract_selected_fields item).start_date = Val.vnull ∨
        ∃ dt : PyDateTime, (extract_selected_fields item).start_date = Val.vstr dt.dateIso) ∧
      ((extract_selected_fields item).end_date = Val.vnull ∨
        ∃ dt : PyDateTime, (extract_selected_fields item).end_date = Val.vstr dt.dateIso) ∧
      (∀ xs : List Val, dictGet item "categories" = Val.vlist xs →
        (extract_selected_fields item).categories =
          Val.vstr (String.intercalate ", " (xs.map pyStr))) := by
  intro item
  have hshape : ∀ v : Val, optStrVal (_coerce_epoch_or_date v) = Val.vnull ∨
      ∃ dt : PyDateTime, optStrVal (_coerce_epoch_or_date v) = Val.vstr dt.dateIso := by
    intro v
    cases h : _coerce_epoch_or_date v with
    | none => left; simp [optStrVal]
    | some s =>
      right
      obtain ⟨dt, rfl⟩ := coerce_shape v s h
      exact ⟨dt, by simp [optStrVal]⟩
  refine ⟨?_, ?_, ?_⟩
  · simpa [extract_selected_fields] using
      hshape (pyOr (dictGet item "start_date") (dictGet item "startDate"))
  · simpa [extract_selected_fields] using
      hshape (pyOr (dictGet item "end_date") (dictGet item "endDate"))
  · intro xs hxs
    simp [extract_selected_fields, hxs]

/-- Witness for the categories clause of the amended C1. -/
theorem curated_projection_dates_iso_and_passthrough_witness :
    dictGet [("categories", Val.vlist [Val.vstr "A", Val.vstr "B"])] "categories" =
      Val.vlist [Val.vstr "A", Val.vstr "B"] ∧
    (extract_selected_fields [("categories", Val.vlist [Val.vstr "A", Val.vstr "B"])]).categories =
      Val.vstr "A, B" :=
  ⟨rfl,
   (curated_projection_dates_iso_and_passthrough
      [("categories", Val.vlist [Val.vstr "A", Val.vstr "B"])]).2.2
      [Val.vstr "A", Val.vstr "B"] rfl⟩

/-- C8 counterexample: `summarize_text` does not return every short input
unchanged — a newline inside a 3-character input is rewritten to a space —
and with length 0 the output (2 characters) exceeds the length parameter. -/
theorem summarize_text_counterexample :
    summarize_text (Val.vstr "a\nb") 160 = "a b" ∧
    summarize_text (Val.vstr "a\nb") 160 ≠ "a\nb" ∧
    summarize_text (Val.vstr "ab") 0 = "a…" ∧
    ¬ ((summarize_text (Val.vstr "ab") 0).length : Int) ≤ 0 :=
  ⟨rfl, by decide, rfl, by decide⟩

set_option maxRecDepth 8000 in
/-- C8 as amended: a 300-character input without whitespace or newlines
truncates to exactly 160 characters ending in the ellipsis; an input of at
most 160 characters on which whitespace normalization is a no-op is
returned unchanged; null/empty input yields the empty string; and for
every input and every length of at least 1, the output never exceeds the
length. -/
theorem summarize_text_amended :
    ((summarize_text (Val.vstr (String.mk (List.replicate 300 'x'))) 160).length = 160 ∧
      (summarize_text (Val.vstr (String.mk (List.replicate 300 'x'))) 160).toList.getLast? =
        some '…') ∧
    (∀ s : String, s ≠ "" → pyStrip s = s → replaceNl s = s → s.length ≤ 160 →
      summarize_text (Val.vstr s) 160 = s) ∧
    (summarize_text Val.vnull 160 = "" ∧ summarize_text (Val.vstr "") 160 = "") ∧
    (∀ (v : Val) (len : Int), 1 ≤ len → ((summarize_text v len).length : Int) ≤ len) := by
  refine ⟨⟨by decide, by decide⟩, ?_, ⟨rfl, rfl⟩, ?_⟩
  · intro s hne hstrip hrepl hlen
    unfold summarize_text
    have ht : Val.truthy (Val.vstr s) = true := by
      simp [Val.truthy, hne]
    rw [ht]
    simp only [Bool.not_true, Bool.false_eq_true, if_false, pyStr, hstrip, hrepl]
    have : ¬ ((s.length : Int) > 160) := by omega
    simp [this]
  · intro v len hlen
    unfold summarize_text
    cases htr : Val.truthy v with
    | false =>
      simp only [htr, Bool.not_false, if_true]
      simp
      omega
    | true =>
      simp only [htr, Bool.not_true, Bool.false_eq_true, if_false]
      set t := replaceNl (pyStrip (pyStr v)) with hht
      by_cases hgt : (t.length : Int) > len
      · simp only [hgt, if_true]
        have h1 : (pySlice t (len - 1) ++ "…").length = (pySlice t (len - 1)).length + 1 := by
          have he : "…".length = 1 := rfl
          rw [String.length_append, he]
        have hk : (0 : Int) ≤ len - 1 := by omega
        have h2 : (pySlice t (len - 1)).length ≤ (len - 1).toNat := by
          unfold pySlice
          rw [if_pos hk]
          have hmk : (String.mk (t.toList.take (len - 1).toNat)).length =
              (t.toList.take (len - 1).toNat).length := rfl
          rw [hmk, List.length_take]
          omega
        rw [h1] at *
        omega
      · simp only [hgt, if_false]
        omega

/-- Witness for the quantified parts of the amended C8. -/
theorem summarize_text_amended_witness :
    ("hello" ≠ "" ∧ pyStrip "hello" = "hello" ∧ replaceNl "hello" = "hello" ∧
      String.length "hello" ≤ 160 ∧ summarize_text (Val.vstr "hello") 160 = "hello") ∧
    ((1 : Int) ≤ 5 ∧ ((summarize_text (Val.vstr "abcdefgh") 5).length : Int) ≤ 5) :=
  ⟨⟨by decide, by decide, by decide, by decide,
    summarize_text_amended.2.1 "hello" (by decide) (by decide) (by decide) (by decide)⟩,
   ⟨by decide, summarize_text_amended.2.2.2 (Val.vstr "abcdefgh") 5 (by decide)⟩⟩

/-- C3: an explicit status key wins over the boolean flag (a record with
`activeStatus="paused"` reports "Paused" whatever `is_active` is), the
inactive-boolean and default-Active fallbacks behave as described — but
the end-date fallback crashes: with only a plain string end date the
parsed value is timezone-naive and the comparison against the aware `now`
raises `TypeError` instead of reporting a status. -/
theorem detect_status_priority_and_naive_enddate_typeerror :
    detect_status [("activeStatus", Val.vstr "paused"), ("is_active", Val.vbool true)] nowRef =
      .ok "Paused" ∧
    detect_status [("activeStatus", Val.vstr "paused"), ("is_active", Val.vbool false)] nowRef =
      .ok "Paused" ∧
    detect_status [("is_active", Val.vbool false)] nowRef = .ok "Inactive" ∧
    detect_status ([] : PyDict) nowRef = .ok "Active" ∧
    detect_status [("end_date", Val.vint 1700000000)] nowRef = .ok "Inactive" ∧
    detect_status [("end_date", Val.vstr "2030-01-01")] nowRef =
      .error "TypeError: cannot compare offset-naive and offset-aware datetimes" :=
  ⟨rfl, rfl, rfl, rfl, rfl, rfl⟩

/-- Every value returned by `get_original_image_url` is truthy (the
source returns a candidate only after an `if v:` check). -/
theorem getOrig_truthy {item : PyDict} {u : Val}
    (h : get_original_image_url item = some u) : u.truthy = true := by
  unfold get_original_image_url at h
  obtain ⟨im, _, hf⟩ := List.exists_of_findSome?_eq_some h
  match im, hf with
  | Val.vdict d, hf =>
    obtain ⟨k, _, hkf⟩ := List.exists_of_findSome?_eq_some hf
    dsimp only at hkf
    split at hkf
    next htr =>
      injection hkf with h'
      rw [← h']
      exact htr
    next => exact absurd hkf (by simp)

/-- C4: whenever the snapshot yields a resolved image URL, the primary
media is that image — in particular a record carrying both a resolved
snapshot image and a direct video key reports the image, not the video —
and exactly one (kind, url) pair is produced. -/
theorem media_snapshot_image_over_video :
    (∀ (item : PyDict) (u : Val), get_original_image_url item = some u →
      extract_primary_media item = some ("image", u)) ∧
    extract_primary_media
      [("snapshot",
        Val.vdict [("images", Val.vlist [Val.vdict [("original_image_url", Val.vstr "IMG")]])]),
       ("videoUrl", Val.vstr "VID")] = some ("image", Val.vstr "IMG") := by
  constructor
  · intro item u h
    unfold extract_primary_media
    rw [h]
    simp [getOrig_truthy h]
  · rfl

/-- Witness for the quantified part of C4, at a record that has both a
snapshot image and a direct video key. -/
theorem media_snapshot_image_over_video_witness :
    get_original_image_url
      [("snapshot",
        Val.vdict [("images", Val.vlist [Val.vdict [("original_image_url", Val.vstr "PIC")]])]),
       ("videoUrl", Val.vstr "MOVIE")] = some (Val.vstr "PIC") ∧
    extract_primary_media
      [("snapshot",
        Val.vdict [("images", Val.vlist [Val.vdict [("original_image_url", Val.vstr "PIC")]])]),
       ("videoUrl", Val.vstr "MOVIE")] = some ("image", Val.vstr "PIC") :=
  ⟨rfl, media_snapshot_image_over_video.1 _ _ rfl⟩

/-- C5: an unknown collection name is rejected by both operations, the
insert leaving the store unchanged; the valid names are exactly the three
fixed team tables. -/
theorem store_rejects_unknown_collection :
    ∀ (t : String) (fields : PyDict) (raw : Option Val) (st : DBState),
      (t ∈ TEAM_TABLES ↔ t = "team1" ∨ t = "team2" ∨ t = "team3") ∧
      (t ∉ TEAM_TABLES →
        db_insert_team t fields raw st = (.error ("Invalid team table: " ++ t), st) ∧
        db_fetch_team t st = .error ("Invalid team table: " ++ t)) := by
  intro t fields raw st
  refine ⟨by simp [TEAM_TABLES], ?_⟩
  intro h
  constructor
  · unfold db_insert_team
    rw [if_pos h]
  · unfold db_fetch_team
    rw [if_pos h]

/-- Witness for C5 at the non-member name "teamX". -/
theorem store_rejects_unknown_collection_witness :
    ("teamX" ∉ TEAM_TABLES) ∧
    db_insert_team "teamX" [] none (init_db emptyDB) =
      (.error "Invalid team table: teamX", init_db emptyDB) ∧
    db_fetch_team "teamX" (init_db emptyDB) = .error "Invalid team table: teamX" := by
  have h := (store_rejects_unknown_collection "teamX" [] none (init_db emptyDB)).2 (by decide)
  exact ⟨by decide, h.1, h.2⟩

/-- `decodeRowRaw` only touches the `raw_json` field. -/
theorem decodeRowRaw_saved_at (r : TeamRow) : (decodeRowRaw r).saved_at = r.saved_at := by
  unfold decodeRowRaw
  split
  next =>
    split
    · split
      · rfl
      · rfl
    · rfl
  next => rfl

/-- Looking up a table after replacing its rows. -/
theorem getTable_setTable (t : String) (rows rows' : List TeamRow)
    (ts : List (String × List TeamRow)) (h : getTable t ts = some rows) :
    getTable t (setTable t rows' ts) = some rows' := by
  induction ts with
  | nil => simp [getTable] at h
  | cons p ts ih =>
    obtain ⟨n, rs⟩ := p
    by_cases hn : n = t
    · subst hn
      simp [setTable, getTable, List.find?]
    · unfold getTable at h
      rw [List.find?] at h
      have hb : (n == t) = false := by simp [hn]
      rw [hb] at h
      simp only at h
      unfold setTable
      rw [if_neg (by simp [hn])]
      unfold getTable
      rw [List.find?, hb]
      exact ih h

/-- The freshly appended row, having the strictly largest `saved_at`,
sorts to the front under `ORDER BY saved_at DESC`. -/
theorem insertionSort_head_of_max (rows : List TeamRow) (nr : TeamRow)
    (H : ∀ x ∈ rows, x.saved_at < nr.saved_at) :
    ∃ rest, List.insertionSort savedAtDesc (rows ++ [nr]) = nr :: rest := by
  have hperm : List.Perm (List.insertionSort savedAtDesc (rows ++ [nr])) (rows ++ [nr]) :=
    List.perm_insertionSort _ _
  have hsorted : List.Sorted savedAtDesc (List.insertionSort savedAtDesc (rows ++ [nr])) :=
    List.sorted_insertionSort _ _
  have hmem : nr ∈ List.insertionSort savedAtDesc (rows ++ [nr]) :=
    hperm.mem_iff.mpr (by simp)
  cases hl : List.insertionSort savedAtDesc (rows ++ [nr]) with
  | nil => rw [hl] at hmem; simp at hmem
  | cons h t =>
    refine ⟨t, ?_⟩
    rw [hl] at hmem hsorted hperm
    have hh : h ∈ rows ++ [nr] := hperm.subset (by simp)
    rcases List.mem_append.mp hh with hh | hh
    · rcases List.mem_cons.mp hmem with he | ht
      · rw [he]
      · have h1 := List.rel_of_sorted_cons hsorted nr ht
        have h2 := H h hh
        unfold savedAtDesc at h1
        omega
    · simp only [List.mem_singleton] at hh
      rw [hh]

/-- C6: for every valid collection and any store whose rows were all
saved at earlier instants, an insert followed by a list succeeds and
returns the newly inserted row first, with its `id` assigned by the
store's autoincrement and its `saved_at` by the store's clock, the whole
listing ordered most-recently-saved first. -/
theorem insert_then_fetch_newest_first :
    ∀ (t : String) (fields : PyDict) (raw : Option Val) (st : DBState) (rows : List TeamRow),
      t ∈ TEAM_TABLES →
      getTable t st.tables = some rows →
      (∀ x ∈ rows, x.saved_at < st.clock) →
      ∃ rest,
        (db_insert_team t fields raw st).1 = .ok () ∧
        db_fetch_team t (db_insert_team t fields raw st).2 =
          .ok (decodeRowRaw (mkInsertRow fields raw rows st.clock) :: rest) ∧
        (mkInsertRow fields raw rows st.clock).id = nextRowId rows ∧
        (mkInsertRow fields raw rows st.clock).saved_at = st.clock ∧
        List.Sorted (fun a b : TeamRow => b.saved_at ≤ a.saved_at)
          (decodeRowRaw (mkInsertRow fields raw rows st.clock) :: rest) := by
  intro t fields raw st rows hmem hget H
  have hnotnot : ¬ t ∉ TEAM_TABLES := by simp [hmem]
  obtain ⟨rest0, hsort⟩ :=
    insertionSort_head_of_max rows (mkInsertRow fields raw rows st.clock) H
  have hins : db_insert_team t fields raw st =
      (.ok (), ⟨setTable t (rows ++ [mkInsertRow fields raw rows st.clock]) st.tables,
        st.clock + 1⟩) := by
    unfold db_insert_team
    rw [if_neg hnotnot, hget]
  refine ⟨rest0.map decodeRowRaw, ?_, ?_, rfl, rfl, ?_⟩
  · rw [hins]
  · rw [hins]
    unfold db_fetch_team
    rw [if_neg hnotnot]
    rw [getTable_setTable t rows _ st.tables hget]
    show Except.ok
        ((List.insertionSort savedAtDesc
          (rows ++ [mkInsertRow fields raw rows st.clock])).map decodeRowRaw) = _
    rw [hsort]
    simp
  · have hs : List.Sorted savedAtDesc
        (List.insertionSort savedAtDesc (rows ++ [mkInsertRow fields raw rows st.clock])) :=
      List.sorted_insertionSort _ _
    rw [hsort] at hs
    have := List.Pairwise.map (R := savedAtDesc)
      (S := fun a b : TeamRow => b.saved_at ≤ a.saved_at) decodeRowRaw
      (fun a b hab => by
        unfold savedAtDesc at hab
        simp only [decodeRowRaw_saved_at]
        exact hab) hs
    simpa using this

/-- Witness for C6: a fresh store, one insert into team1. -/
theorem insert_then_fetch_newest_first_witness :
    ("team1" ∈ TEAM_TABLES) ∧
    getTable "team1" (init_db emptyDB).tables = some [] ∧
    (∀ x ∈ ([] : List TeamRow), x.saved_at < (init_db emptyDB).clock) ∧
    (∃ rest,
      (db_insert_team "team1" [("page_name", Val.vstr "P")] none (init_db emptyDB)).1 =
        .ok () ∧
      db_fetch_team "team1"
          (db_insert_team "team1" [("page_name", Val.vstr "P")] none (init_db emptyDB)).2 =
        .ok (decodeRowRaw
          (mkInsertRow [("page_name", Val.vstr "P")] none [] (init_db emptyDB).clock) :: rest) ∧
      (mkInsertRow [("page_name", Val.vstr "P")] none [] (init_db emptyDB).clock).id =
        nextRowId [] ∧
      (mkInsertRow [("page_name", Val.vstr "P")] none [] (init_db emptyDB).clock).saved_at =
        (init_db emptyDB).clock ∧
      List.Sorted (fun a b : TeamRow => b.saved_at ≤ a.saved_at)
        (decodeRowRaw
          (mkInsertRow [("page_name", Val.vstr "P")] none [] (init_db emptyDB).clock) :: rest)) :=
  ⟨by decide, rfl, by simp,
   insert_then_fetch_newest_first "team1" [("page_name", Val.vstr "P")] none
     (init_db emptyDB) [] (by decide) rfl (by simp)⟩

/-- C7: the stored `is_active` is a tri-state — an absent/null incoming
field is stored as SQL `NULL` (never defaulted to false), and a present
field is stored as an explicit 0/1; in particular boolean inputs map to
their integer truth value. -/
theorem insert_is_active_tristate :
    ∀ (t : String) (fields : PyDict) (raw : Option Val) (st : DBState) (rows : List TeamRow),
      t ∈ TEAM_TABLES →
      getTable t st.tables = some rows →
      (getTable t (db_insert_team t fields raw st).2.tables =
        some (rows ++ [mkInsertRow fields raw rows st.clock])) ∧
      (dictGet fields "is_active" = Val.vnull →
        (mkInsertRow fields raw rows st.clock).is_active = Val.vnull) ∧
      (∀ b : Bool, dictGet fields "is_active" = Val.vbool b →
        (mkInsertRow fields raw rows st.clock).is_active =
          Val.vint (if b then 1 else 0)) ∧
      (dictGet fields "is_active" ≠ Val.vnull →
        (mkInsertRow fields raw rows st.clock).is_active = Val.vint 0 ∨
        (mkInsertRow fields raw rows st.clock).is_active = Val.vint 1) := by
  intro t fields raw st rows hmem hget
  have hnotnot : ¬ t ∉ TEAM_TABLES := by simp [hmem]
  refine ⟨?_, ?_, ?_, ?_⟩
  · unfold db_insert_team
    rw [if_neg hnotnot, hget]
    exact getTable_setTable t rows _ st.tables hget
  · intro h
    unfold mkInsertRow
    simp only [h]
  · intro b h
    unfold mkInsertRow
    simp only [h]
    cases b <;> simp [Val.truthy]
  · intro h
    unfold mkInsertRow
    simp only []
    cases hv : dictGet fields "is_active" with
    | vnull => exact absurd hv h
    | vbool b => cases hb : (Val.vbool b).truthy <;> simp [hb]
    | vint n => cases hb : (Val.vint n).truthy <;> simp [hb]
    | vstr s => cases hb : (Val.vstr s).truthy <;> simp [hb]
    | vlist xs => cases hb : (Val.vlist xs).truthy <;> simp [hb]
    | vdict d => cases hb : (Val.vdict d).truthy <;> simp [hb]

/-- Witness for C7: one insert with the field absent, one with an
explicit `True`. -/
theorem insert_is_active_tristate_witness :
    (dictGet ([] : PyDict) "is_active" = Val.vnull ∧
      (mkInsertRow [] none [] 0).is_active = Val.vnull) ∧
    (dictGet [("is_active", Val.vbool true)] "is_active" = Val.vbool true ∧
      (mkInsertRow [("is_active", Val.vbool true)] none [] 0).is_active = Val.vint 1) :=
  ⟨⟨rfl,
    (insert_is_active_tristate "team1" [] none (init_db emptyDB) [] (by decide) rfl).2.1 rfl⟩,
   ⟨rfl,
    (insert_is_active_tristate "team1" [("is_active", Val.vbool true)] none (init_db emptyDB) []
      (by decide) rfl).2.2.1 true rfl⟩⟩

/-- Hex digits are never the space character. -/
theorem hexUpper_ne_space (n : Nat) : hexUpper n ≠ ' ' := by
  by_cases h : n < 16
  · interval_cases n <;> decide
  · unfold hexUpper
    rw [List.getD_eq_default]
    · decide
    · simp only [HEX_DIGITS, List.length]
      omega

/-- No encoding of a single character under `quote_plus` contains a
literal space. -/
theorem quotePlusChar_no_space (c : Char) : ' ' ∉ quotePlusChar c := by
  by_cases h1 : c = ' '
  · rw [quotePlusChar, if_pos h1]
    decide
  · rw [quotePlusChar, if_neg h1]
    by_cases h2 : (c.isAlphanum || c = '_' || c = '.' || c = '-' || c = '~') = true
    · rw [if_pos h2]
      intro hm
      simp only [List.mem_singleton] at hm
      exact h1 hm.symm
    · rw [if_neg h2]
      intro hm
      obtain ⟨b, _, hb⟩ := List.exists_of_mem_flatMap hm
      simp only [List.mem_cons, List.mem_singleton, List.not_mem_nil, or_false] at hb
      rcases hb with hb | hb | hb
      · exact absurd hb (by decide)
      · exact hexUpper_ne_space (b / 16) hb.symm
      · exact hexUpper_ne_space (b % 16) hb.symm

/-- `quote_plus` output never contains a literal space. -/
theorem quote_plus_no_space (s : String) : ' ' ∉ (quote_plus s).data := by
  show ' ' ∉ s.toList.flatMap quotePlusChar
  intro hm
  obtain ⟨c, _, hc⟩ := List.exists_of_mem_flatMap hm
  exact quotePlusChar_no_space c hc

/-- C9: the query builder is a pure deterministic function of its five
inputs; the URL embeds the trimmed, upper-cased country; and given
space-free tokens for the pass-through parameters, the URL contains no
literal space whatever the keyword is (the keyword is percent-encoded). -/
theorem url_builder_deterministic_trimmed_encoded :
    ∀ country keyword ad_type active_status search_mode : String,
      (build_fb_ads_library_url country keyword ad_type active_status search_mode =
        build_fb_ads_library_url country keyword ad_type active_status search_mode) ∧
      (∃ pre post : List Char,
        (build_fb_ads_library_url country keyword ad_type active_status search_mode).data =
          pre ++ (pyUpper (pyStrip country)).data ++ post) ∧
      (' ' ∉ ad_type.data → ' ' ∉ active_status.data → ' ' ∉ search_mode.data →
        ' ' ∉ (pyUpper (pyStrip country)).data →
        ' ' ∉ (build_fb_ads_library_url country keyword ad_type active_status search_mode).data) := by
  intro c k a s m
  refine ⟨rfl, ?_, ?_⟩
  · refine ⟨("https://www.facebook.com/ads/library/?" ++ "active_status=" ++ s ++ "&" ++
        "ad_type=" ++ a ++ "&" ++ "country=").data,
      ("&" ++ "is_targeted_country=false&" ++ "media_type=all&" ++ "q=" ++
        quote_plus (pyStrip k) ++ "&" ++ "search_type=" ++ m).data, ?_⟩
    simp [build_fb_ads_library_url, String.data_append]
  · intro h1 h2 h3 h4
    unfold build_fb_ads_library_url
    simp only [String.data_append, List.mem_append, not_or]
    simp only [h1, h2, h3, h4, quote_plus_no_space, not_false_eq_true, and_true, true_and]
    decide

/-- Witness for C9 at the reference arguments with a space-containing
keyword. -/
theorem url_builder_deterministic_trimmed_encoded_witness :
    (' ' ∉ "all".data ∧ ' ' ∉ "active".data ∧ ' ' ∉ "keyword_unordered".data ∧
      ' ' ∉ (pyUpper (pyStrip "us")).data) ∧
    ' ' ∉ (build_fb_ads_library_url "us" "red shoes" "all" "active" "keyword_unordered").data :=
  ⟨⟨by decide, by decide, by decide, by decide⟩,
   (url_builder_deterministic_trimmed_encoded "us" "red shoes" "all" "active"
      "keyword_unordered").2.2 (by decide) (by decide) (by decide) (by decide)⟩

end AdAnalytics
